import Mathlib

/-!
Shallow embedding of the IntegrationKit build-orchestration core of camel-k:
`pkg/controller/integrationkit/build.go` (buildAction: handleBuildSubmitted,
handleBuildRunning, informIntegrations) and the initialize action
(initializeAction.Handle).  External collaborators (the typed resource store,
trait.Apply pipeline composition, digest computation, controller-reference
setting) are modelled as explicit inputs: each handler takes a "world" record
holding the outcome of every external call it may make, and returns the list
of store mutations it completed together with its Go error result.
-/

namespace CamelK

/-! ## Data model -/

inductive KitPhase
  | unset
  | buildSubmitted
  | buildRunning
  | ready
  | error
  | other (s : String)
deriving DecidableEq, Repr

inductive BuildPhase
  | unset
  | running
  | succeeded
  | error
  | interrupted
  | other (s : String)
deriving DecidableEq, Repr

inductive IntegrationPhase
  | unset
  | resolvingKit
  | deploying
  | other (s : String)
deriving DecidableEq, Repr

inductive ClusterFlavor
  | kubernetes
  | openShift
  | other (s : String)
deriving DecidableEq, Repr

inductive PublishStrategy
  | kaniko
  | s2i
  | other (s : String)
deriving DecidableEq, Repr

structure Artifact where
  id : String
  location : String
  target : String
deriving DecidableEq, Repr

structure ObjectMeta where
  ns : String
  name : String
deriving DecidableEq, Repr

structure PlatformSpec where
  cluster : ClusterFlavor
  publishStrategy : PublishStrategy
  registryAddress : String
deriving DecidableEq, Repr

structure CamelCatalog where
  version : String
deriving DecidableEq, Repr

/-- Modelled from the spec: the Step type of the builder package is not under
src/ (only `pkg/trait/builder_test.go` is); a Step is an immutable pipeline
stage identifier tagged with exactly one phase from a fixed enum. -/
inductive StepPhase
  | projectGeneration
  | buildPackage
  | applicationPackage
  | applicationPublish
deriving DecidableEq, Repr

/-- Modelled from the spec: an ordered pipeline stage, identified by id,
carrying exactly one phase tag. -/
structure Step where
  id : String
  phase : StepPhase
deriving DecidableEq, Repr

/-- Modelled from the spec: `builder.StepIDsFor` projects Steps to their
identifiers only (step identity, not behavior, is persisted). -/
def stepIDsFor (steps : List Step) : List String :=
  steps.map (fun s => s.id)

structure Env where
  camelCatalog : Option CamelCatalog
  runtimeVersion : String
  platform : PlatformSpec
  steps : List Step
  buildDir : String
deriving DecidableEq, Repr

structure KitSpec where
  image : String
  dependencies : List String
deriving DecidableEq, Repr

structure KitStatus where
  phase : KitPhase
  baseImage : String
  image : String
  publicImage : String
  artifacts : List Artifact
  digest : String
  failure : String
deriving DecidableEq, Repr

structure Kit where
  meta : ObjectMeta
  spec : KitSpec
  status : KitStatus
deriving DecidableEq, Repr

structure BuildSpec where
  meta : ObjectMeta
  camelVersion : String
  runtimeVersion : String
  platform : PlatformSpec
  dependencies : List String
  steps : List String
  buildDir : String
deriving DecidableEq, Repr

structure BuildStatus where
  phase : BuildPhase
  baseImage : String
  image : String
  publicImage : String
  artifacts : List Artifact
  failure : String
  errorText : String
deriving DecidableEq, Repr

structure Build where
  meta : ObjectMeta
  spec : BuildSpec
  status : BuildStatus
deriving DecidableEq, Repr

/-- The Go zero value of `BuildStatus` (`&v1alpha1.Build{}` before `Get`
populates it, and the status of a freshly constructed Build). -/
def BuildStatus.zero : BuildStatus :=
  { phase := .unset, baseImage := "", image := "", publicImage := ""
  , artifacts := [], failure := "", errorText := "" }

/-- The Go zero value of a `Build` object. -/
def Build.zero : Build :=
  { meta := { ns := "", name := "" }
  , spec := { meta := { ns := "", name := "" }, camelVersion := ""
            , runtimeVersion := ""
            , platform := { cluster := .other "", publishStrategy := .other ""
                          , registryAddress := "" }
            , dependencies := [], steps := [], buildDir := "" }
  , status := BuildStatus.zero }

structure IntegrationStatus where
  kit : String
  phase : IntegrationPhase
deriving DecidableEq, Repr

structure Integration where
  meta : ObjectMeta
  status : IntegrationStatus
deriving DecidableEq, Repr

/-! ## Handler results, errors and effects -/

/-- Structured Go errors returned by the handlers. -/
inductive HandlerError
  | store (msg : String)
  | buildNotFound
  | applyErr (msg : String)
  | undefinedCamelCatalog
  | setRefErr (msg : String)
  | cannotDeleteBuild (msg : String)
  | cannotCreateBuild (msg : String)
  | updateErr (msg : String)
  | digestErr (msg : String)
  | listErr (msg : String)
  | kitPhaseConflict (name : String) (expected found : KitPhase)
deriving DecidableEq, Repr

/-- A handler's Go return value: nil or an error. -/
inductive HResult
  | ok
  | err (e : HandlerError)
deriving DecidableEq, Repr

/-- A store mutation that the handler completed without aborting. -/
inductive Effect
  | deleteBuild (ns name : String)
  | createBuild (b : Build)
  | updateKit (k : Kit)
  | updateKitStatus (k : Kit)
  | updateIntegrationStatus (i : Integration)
deriving DecidableEq, Repr

/-- What a handler pass did: completed store mutations in order, and the
returned error (if any). -/
structure Outcome where
  effects : List Effect
  result : HResult
deriving DecidableEq, Repr

/-- Result of an external call that either yields a value or a Go error. -/
inductive Res (α : Type)
  | ok (a : α)
  | err (msg : String)
deriving DecidableEq, Repr

/-- Result of `client.Get` for the Build sharing the Kit's identity. -/
inductive GetBuildResult
  | found (b : Build)
  | notFound
  | storeErr (msg : String)
deriving DecidableEq, Repr

/-- Result of `client.Delete`. -/
inductive OpResult
  | ok
  | notFound
  | err (msg : String)
deriving DecidableEq, Repr

/-! ## handleBuildSubmitted (build.go lines 66-133) -/

/-- The outcomes of the external calls `handleBuildSubmitted` may perform. -/
structure SubmitWorld where
  getBuild : GetBuildResult
  applyEnv : Res Env
  setRef : Res Unit
  delBuild : OpResult
  createRes : Res Unit
  updateStatus : Res Unit

/-- The terminal-phase test of build.go lines 74-76: the fetched Build's
phase is Error, Interrupted or Succeeded, so a rebuild is triggered. -/
def triggerPhase (p : BuildPhase) : Bool :=
  p = BuildPhase.error ∨ p = BuildPhase.interrupted ∨ p = BuildPhase.succeeded

/-- The (re)build trigger condition of build.go lines 73-76: Build absent
(not-found) or fetched Build in a terminal phase. -/
def rebuildTriggered : GetBuildResult → Bool
  | .found b => triggerPhase b.status.phase
  | .notFound => true
  | .storeErr _ => false

/-- The new Build constructed at build.go lines 87-105 from the Kit metadata,
the resolved catalog version, and the Environment. Its status is the zero
value. -/
def mkBuild (kit : Kit) (env : Env) (catalog : CamelCatalog) : Build :=
  { meta := { ns := kit.meta.ns, name := kit.meta.name }
  , spec := { meta := kit.meta
            , camelVersion := catalog.version
            , runtimeVersion := env.runtimeVersion
            , platform := env.platform
            , dependencies := kit.spec.dependencies
            , steps := stepIDsFor env.steps
            , buildDir := env.buildDir }
  , status := BuildStatus.zero }

/-- build.go lines 123-132: after ensuring a Build exists, if the Build in
hand is observed Running, advance the Kit to BuildRunning and persist. -/
def afterEnsure (kit : Kit) (w : SubmitWorld) (prior : List Effect)
    (build : Build) : Outcome :=
  if build.status.phase = BuildPhase.running then
    let target := { kit with status := { kit.status with phase := .buildRunning } }
    match w.updateStatus with
    | .err msg => { effects := prior, result := .err (.updateErr msg) }
    | .ok _ => { effects := prior ++ [.updateKitStatus target], result := .ok }
  else
    { effects := prior, result := .ok }

/-- build.go lines 78-120: the triggered (re)build — compose the pipeline,
fail hard on a missing catalog, build the new Build, set the owner reference,
delete the old Build tolerating not-found, create the new one. -/
def rebuild (kit : Kit) (w : SubmitWorld) : Outcome :=
  match w.applyEnv with
  | .err msg => { effects := [], result := .err (.applyErr msg) }
  | .ok env =>
    match env.camelCatalog with
    | none => { effects := [], result := .err .undefinedCamelCatalog }
    | some catalog =>
      let newBuild := mkBuild kit env catalog
      match w.setRef with
      | .err msg => { effects := [], result := .err (.setRefErr msg) }
      | .ok _ =>
        match w.delBuild with
        | .err msg => { effects := [], result := .err (.cannotDeleteBuild msg) }
        | _ =>
          match w.createRes with
          | .err msg =>
            { effects := [.deleteBuild kit.meta.ns kit.meta.name]
            , result := .err (.cannotCreateBuild msg) }
          | .ok _ =>
            afterEnsure kit w
              [.deleteBuild kit.meta.ns kit.meta.name, .createBuild newBuild]
              newBuild

/-- build.go lines 66-133: ensure a build is in flight for a Kit in phase
BuildSubmitted. -/
def handleBuildSubmitted (kit : Kit) (w : SubmitWorld) : Outcome :=
  match w.getBuild with
  | .storeErr msg => { effects := [], result := .err (.store msg) }
  | .notFound => rebuild kit w
  | .found b =>
    if triggerPhase b.status.phase then rebuild kit w
    else afterEnsure kit w [] b

/-! ## handleBuildRunning and informIntegrations (build.go lines 135-229) -/

/-- The outcomes of the external calls `handleBuildRunning` and
`informIntegrations` may perform. `listIntegrations` is the namespace-scoped
List of Integrations in the Kit's namespace; `updateIntegration` gives the
result of the status update for the Integration of that name. -/
structure RunningWorld where
  getBuild : GetBuildResult
  updateStatus : Res Unit
  listIntegrations : Res (List Integration)
  updateIntegration : String → Res Unit

/-- build.go line 222: set the Integration's phase to ResolvingKit. -/
def setResolving (i : Integration) : Integration :=
  { i with status := { i.status with phase := .resolvingKit } }

/-- The loop of build.go lines 217-227: for each listed Integration whose
recorded Kit name equals this Kit's name, set phase ResolvingKit and persist;
the first persistence failure aborts the loop and is returned. -/
def informLoop (kitName : String) (items : List Integration)
    (upd : String → Res Unit) : Outcome :=
  match items with
  | [] => { effects := [], result := .ok }
  | i :: rest =>
    if i.status.kit = kitName then
      match upd i.meta.name with
      | .err msg => { effects := [], result := .err (.updateErr msg) }
      | .ok _ =>
        let o := informLoop kitName rest upd
        { effects := .updateIntegrationStatus (setResolving i) :: o.effects
        , result := o.result }
    else
      informLoop kitName rest upd

/-- build.go lines 211-229: trigger the processing of all Integrations
waiting for this Kit to be built. -/
def informIntegrations (kit : Kit) (w : RunningWorld) : Outcome :=
  match w.listIntegrations with
  | .err msg => { effects := [], result := .err (.listErr msg) }
  | .ok items => informLoop kit.meta.name items w.updateIntegration

/-- The Kit status written at build.go lines 160-173 when the Build
succeeded: images copied from the Build status, phase Ready, artifacts
copied with the location stripped. -/
def readyTarget (kit : Kit) (b : Build) : Kit :=
  { kit with status :=
    { kit.status with
      baseImage := b.status.baseImage
    , image := b.status.image
    , publicImage := b.status.publicImage
    , phase := .ready
    , artifacts := b.status.artifacts.map
        (fun a => { id := a.id, location := "", target := a.target }) } }

/-- The Kit status written at build.go lines 198-200 when the Build failed:
failure detail copied, phase Error. -/
def errorTarget (kit : Kit) (b : Build) : Kit :=
  { kit with status :=
    { kit.status with failure := b.status.failure, phase := .error } }

/-- build.go lines 135-208: monitor the running Build and finalize the Kit
when it terminates. A missing Build here is a hard error. -/
def handleBuildRunning (kit : Kit) (w : RunningWorld) : Outcome :=
  match w.getBuild with
  | .storeErr msg => { effects := [], result := .err (.store msg) }
  | .notFound => { effects := [], result := .err .buildNotFound }
  | .found build =>
    match build.status.phase with
    | .running => { effects := [], result := .ok }
    | .succeeded =>
      if kit.status.phase = KitPhase.buildRunning then
        let target := readyTarget kit build
        match w.updateStatus with
        | .err msg => { effects := [], result := .err (.updateErr msg) }
        | .ok _ =>
          let o := informIntegrations target w
          { effects := .updateKitStatus target :: o.effects, result := o.result }
      else
        { effects := []
        , result := .err (.kitPhaseConflict build.spec.meta.name
            .buildRunning kit.status.phase) }
    | .error =>
      if kit.status.phase = KitPhase.buildRunning then
        let target := errorTarget kit build
        match w.updateStatus with
        | .err msg => { effects := [], result := .err (.updateErr msg) }
        | .ok _ => { effects := [.updateKitStatus target], result := .ok }
      else
        { effects := []
        , result := .err (.kitPhaseConflict build.spec.meta.name
            .buildRunning kit.status.phase) }
    | .interrupted =>
      if kit.status.phase = KitPhase.buildRunning then
        let target := errorTarget kit build
        match w.updateStatus with
        | .err msg => { effects := [], result := .err (.updateErr msg) }
        | .ok _ => { effects := [.updateKitStatus target], result := .ok }
      else
        { effects := []
        , result := .err (.kitPhaseConflict build.spec.meta.name
            .buildRunning kit.status.phase) }
    | _ => { effects := [], result := .ok }

/-- build.go lines 56-64: the buildAction dispatch over the two phases it
can handle. -/
def buildActionHandle (kit : Kit) (ws : SubmitWorld) (wr : RunningWorld) :
    Outcome :=
  if kit.status.phase = KitPhase.buildSubmitted then handleBuildSubmitted kit ws
  else if kit.status.phase = KitPhase.buildRunning then handleBuildRunning kit wr
  else { effects := [], result := .ok }

/-- build.go lines 51-54: the buildAction predicate. -/
def buildActionCanHandle (kit : Kit) : Bool :=
  kit.status.phase = KitPhase.buildSubmitted ∨
    kit.status.phase = KitPhase.buildRunning

/-! ## initializeAction.Handle (src/unnamed/part_000 lines 46-86) -/

/-- The outcomes of the external calls `initializeHandle` may perform.
`platformReady` is whether `platform.GetCurrentPlatform` returned without
error; `applyKit` is the Kit as mutated by `trait.Apply` (pipeline
composition may mutate the Kit spec); `digest` is the result of
`digest.ComputeForIntegrationKit`. -/
structure InitWorld where
  platformReady : Bool
  applyKit : Res Kit
  updateKit : Res Unit
  digest : Res String
  updateStatus : Res Unit

/-- part_000 lines 66-76: phase BuildSubmitted when no pre-built image,
otherwise Ready with status.image set from spec.image. -/
def initTarget (target : Kit) : Kit :=
  if target.spec.image = "" then
    { target with status := { target.status with phase := .buildSubmitted } }
  else
    { target with status :=
      { target.status with phase := .ready, image := target.spec.image } }

/-- part_000 lines 46-86: first-time setup of a new Kit. If the platform is
not initialized, perform no mutation and report success (soft wait). -/
def initializeHandle (kit : Kit) (w : InitWorld) : Outcome :=
  if w.platformReady then
    match w.applyKit with
    | .err msg => { effects := [], result := .err (.applyErr msg) }
    | .ok target0 =>
      match w.updateKit with
      | .err msg => { effects := [], result := .err (.updateErr msg) }
      | .ok _ =>
        let target1 := initTarget target0
        match w.digest with
        | .err msg =>
          { effects := [.updateKit target0], result := .err (.digestErr msg) }
        | .ok d =>
          let target2 := { target1 with status := { target1.status with digest := d } }
          match w.updateStatus with
          | .err msg =>
            { effects := [.updateKit target0], result := .err (.updateErr msg) }
          | .ok _ =>
            { effects := [.updateKit target0, .updateKitStatus target2]
            , result := .ok }
  else
    { effects := [], result := .ok }

/-- part_000 lines 42-44: the initializeAction predicate. -/
def initializeCanHandle (kit : Kit) : Bool :=
  kit.status.phase = KitPhase.unset

/-! ## Step pipeline composition (spec-modelled, exercised by
`pkg/trait/builder_test.go`) -/

/-- Modelled from the spec: the Kaniko publisher Step
(`kaniko.Steps.Publisher`, not under src/). -/
def kanikoPublisher : Step :=
  { id := "publisher/kaniko", phase := .applicationPublish }

/-- Modelled from the spec: the S2I publisher Step
(`s2i.Steps.Publisher`, not under src/). -/
def s2iPublisher : Step :=
  { id := "publisher/s2i", phase := .applicationPublish }

/-- Modelled from the spec: the non-publish Steps shared by every composed
sequence; `builder_test.go` observes 7 Steps in total, so six Steps besides
the publisher, none tagged ApplicationPublish. -/
def commonBuildSteps : List Step :=
  [ { id := "generate-project", phase := .projectGeneration }
  , { id := "inject-dependencies", phase := .projectGeneration }
  , { id := "sanitize-dependencies", phase := .projectGeneration }
  , { id := "compute-dependencies", phase := .buildPackage }
  , { id := "incremental-image-context", phase := .applicationPackage }
  , { id := "package-application", phase := .applicationPackage } ]

/-- Modelled from the spec: which concrete Step occupies the
ApplicationPublish slot is selected by (cluster flavor, publish strategy):
Kubernetes + Kaniko gives the Kaniko publisher, OpenShift + S2I gives the
S2I publisher. -/
def publisherFor : ClusterFlavor → PublishStrategy → Step
  | .kubernetes, .kaniko => kanikoPublisher
  | .openShift, .s2i => s2iPublisher
  | _, .s2i => s2iPublisher
  | _, _ => kanikoPublisher

/-- Modelled from the spec: pipeline composition of the builder trait
(`pkg/trait/builder.go`, not under src/). If the build context is absent or
the Kit's phase is unset, composition yields zero Steps; otherwise it yields
the common Steps with the publisher selected by (cluster, strategy) in the
ApplicationPublish slot. -/
def composeSteps (kitPresent : Bool) (kitPhase : KitPhase)
    (cluster : ClusterFlavor) (strategy : PublishStrategy) : List Step :=
  if kitPresent = false ∨ kitPhase = KitPhase.unset then []
  else commonBuildSteps ++ [publisherFor cluster strategy]

/-! ## Effect classifiers -/

/-- An effect that touches the Build resource (delete or create). -/
def Effect.isBuildOp : Effect → Bool
  | .deleteBuild _ _ => true
  | .createBuild _ => true
  | _ => false

/-- An effect that creates a Build. -/
def Effect.isCreate : Effect → Bool
  | .createBuild _ => true
  | _ => false

/-- How many Build creations a list of effects contains. -/
def countCreates (es : List Effect) : Nat :=
  es.countP Effect.isCreate

/-! ## Concrete sample resources, used to exercise the handlers -/

def sampleMeta : ObjectMeta := { ns := "ns", name := "my-kit" }

def samplePlatform : PlatformSpec :=
  { cluster := .kubernetes, publishStrategy := .kaniko
  , registryAddress := "registry" }

def sampleCatalog : CamelCatalog := { version := "2.22.1" }

def sampleEnv : Env :=
  { camelCatalog := some sampleCatalog, runtimeVersion := "1.0"
  , platform := samplePlatform
  , steps := composeSteps true .buildSubmitted .kubernetes .kaniko
  , buildDir := "/workspace" }

def sampleEnvNoCatalog : Env :=
  { camelCatalog := none, runtimeVersion := "1.0", platform := samplePlatform
  , steps := [], buildDir := "/workspace" }

def sampleKitSubmitted : Kit :=
  { meta := sampleMeta, spec := { image := "", dependencies := ["camel:core"] }
  , status := { phase := .buildSubmitted, baseImage := "", image := ""
              , publicImage := "", artifacts := [], digest := "", failure := "" } }

def sampleKitRunning : Kit :=
  { sampleKitSubmitted with
    status := { sampleKitSubmitted.status with phase := .buildRunning } }

def sampleKitUnset : Kit :=
  { sampleKitSubmitted with
    status := { sampleKitSubmitted.status with phase := .unset } }

def sampleKitReadyPhase : Kit :=
  { sampleKitSubmitted with
    status := { sampleKitSubmitted.status with phase := .ready } }

def sampleBuildSucceeded : Build :=
  { meta := sampleMeta
  , spec := { Build.zero.spec with meta := sampleMeta }
  , status := { phase := .succeeded, baseImage := "base:1", image := "img:1"
              , publicImage := "pub:1"
              , artifacts := [{ id := "a", location := "/tmp/a", target := "t" }]
              , failure := "", errorText := "" } }

def sampleBuildRunningObj : Build :=
  { sampleBuildSucceeded with
    status := { sampleBuildSucceeded.status with phase := .running } }

def sampleIntegrations : List Integration :=
  [ { meta := { ns := "ns", name := "i1" }
    , status := { kit := "my-kit", phase := .unset } }
  , { meta := { ns := "ns", name := "i2" }
    , status := { kit := "my-kit-2", phase := .unset } }
  , { meta := { ns := "ns", name := "i3" }
    , status := { kit := "my-kit", phase := .deploying } } ]

def sampleRunningWorld : RunningWorld :=
  { getBuild := .found sampleBuildSucceeded, updateStatus := .ok ()
  , listIntegrations := .ok sampleIntegrations
  , updateIntegration := fun _ => .ok () }

def sampleRunningWorldFail : RunningWorld :=
  { sampleRunningWorld with
    updateIntegration := fun n => if n = "i3" then .err "boom" else .ok () }

def sampleSubmitWorldTrig : SubmitWorld :=
  { getBuild := .notFound, applyEnv := .ok sampleEnv, setRef := .ok ()
  , delBuild := .ok, createRes := .ok (), updateStatus := .ok () }

def sampleSubmitWorldNoCat : SubmitWorld :=
  { sampleSubmitWorldTrig with applyEnv := .ok sampleEnvNoCatalog }

def sampleSubmitWorldRunning : SubmitWorld :=
  { sampleSubmitWorldTrig with getBuild := .found sampleBuildRunningObj }

def sampleSubmitWorldZero : SubmitWorld :=
  { sampleSubmitWorldTrig with
    getBuild := .found (mkBuild sampleKitSubmitted sampleEnv sampleCatalog) }

def sampleInitWorld : InitWorld :=
  { platformReady := true, applyKit := .ok sampleKitUnset
  , updateKit := .ok (), digest := .ok "digest-1", updateStatus := .ok () }

def sampleInitWorldNotReady : InitWorld :=
  { sampleInitWorld with platformReady := false }

/-! ## Theorems -/

/-- C8: composition for cluster Kubernetes with publish strategy Kaniko
yields a Step sequence whose ApplicationPublish-tagged Steps are exactly the
Kaniko publisher; composition for cluster OpenShift with strategy S2I yields
a sequence of the same total Step count whose ApplicationPublish slot is
occupied by the S2I publisher. -/
theorem C8_publisher_selection :
    ((composeSteps true .buildSubmitted .kubernetes .kaniko).filter
        (fun s => s.phase = StepPhase.applicationPublish)) = [kanikoPublisher]
    ∧ ((composeSteps true .buildSubmitted .openShift .s2i).filter
        (fun s => s.phase = StepPhase.applicationPublish)) = [s2iPublisher]
    ∧ (composeSteps true .buildSubmitted .openShift .s2i).length
        = (composeSteps true .buildSubmitted .kubernetes .kaniko).length
    ∧ (composeSteps true .buildSubmitted .kubernetes .kaniko).length = 7 := by
  decide

/-- C9: for a Kit with unset phase, if the platform-level configuration is
not yet initialized, the Initialize handler performs no mutation and returns
success (soft wait). -/
theorem C9_platform_not_ready (kit : Kit) (w : InitWorld)
    (hp : w.platformReady = false) :
    initializeHandle kit w = { effects := [], result := .ok } := by
  unfold initializeHandle
  simp [hp]

/-- Witness for C9 at a concrete Kit and world. -/
theorem C9_platform_not_ready_witness :
    initializeHandle sampleKitUnset sampleInitWorldNotReady
      = { effects := [], result := .ok } :=
  C9_platform_not_ready sampleKitUnset sampleInitWorldNotReady rfl

/-- C6: when a (re)build is triggered and the composed Environment lacks a
resolved camel catalog, the handler fails hard: it returns an error, creates
no Build and writes no Kit status change. -/
theorem C6_missing_catalog_hard_fail (kit : Kit) (w : SubmitWorld) (env : Env)
    (ht : rebuildTriggered w.getBuild = true)
    (ha : w.applyEnv = .ok env)
    (hc : env.camelCatalog = none) :
    handleBuildSubmitted kit w
      = { effects := [], result := .err .undefinedCamelCatalog } := by
  unfold handleBuildSubmitted
  cases hg : w.getBuild with
  | storeErr msg => rw [hg] at ht; simp [rebuildTriggered] at ht
  | notFound => simp [rebuild, ha, hc]
  | found b =>
    rw [hg] at ht
    simp only [rebuildTriggered] at ht
    simp [ht, rebuild, ha, hc]

/-- Witness for C6 at a concrete Kit and world. -/
theorem C6_missing_catalog_hard_fail_witness :
    handleBuildSubmitted sampleKitSubmitted sampleSubmitWorldNoCat
      = { effects := [], result := .err .undefinedCamelCatalog } :=
  C6_missing_catalog_hard_fail sampleKitSubmitted sampleSubmitWorldNoCat
    sampleEnvNoCatalog rfl rfl rfl

/-- C4: when the Build is observed Succeeded (or Error/Interrupted) but the
Kit's phase is no longer BuildRunning, the handler returns a conflict error
carrying the expected and found phases, and writes no status change. -/
theorem C4_phase_conflict (kit : Kit) (b : Build) (w : RunningWorld)
    (hg : w.getBuild = .found b)
    (hb : b.status.phase = .succeeded ∨ b.status.phase = .error
        ∨ b.status.phase = .interrupted)
    (hk : kit.status.phase ≠ .buildRunning) :
    handleBuildRunning kit w
      = { effects := []
        , result := .err (.kitPhaseConflict b.spec.meta.name
            .buildRunning kit.status.phase) } := by
  unfold handleBuildRunning
  rw [hg]
  rcases hb with h | h | h <;> simp [h, hk]

/-- Witness for C4 at a concrete Kit, Build and world. -/
theorem C4_phase_conflict_witness :
    handleBuildRunning sampleKitReadyPhase sampleRunningWorld
      = { effects := []
        , result := .err (.kitPhaseConflict sampleBuildSucceeded.spec.meta.name
            .buildRunning sampleKitReadyPhase.status.phase) } :=
  C4_phase_conflict sampleKitReadyPhase sampleBuildSucceeded sampleRunningWorld
    rfl (Or.inl rfl) (by decide)

/-- C1: when the Build is observed Succeeded and the Kit is still in
BuildRunning, the handler persists a Kit status carrying the Build's base,
image and public image references, phase Ready, and the Build's artifacts
with id and target preserved but location emptied — so the Ready Kit carries
no artifact with a non-empty location — and then invokes dependent
notification. -/
theorem C1_succeeded_finalize (kit : Kit) (b : Build) (w : RunningWorld)
    (hg : w.getBuild = .found b)
    (hb : b.status.phase = .succeeded)
    (hk : kit.status.phase = .buildRunning)
    (hu : w.updateStatus = .ok ()) :
    (handleBuildRunning kit w).effects
        = .updateKitStatus (readyTarget kit b)
            :: (informIntegrations (readyTarget kit b) w).effects
    ∧ (handleBuildRunning kit w).result
        = (informIntegrations (readyTarget kit b) w).result
    ∧ (readyTarget kit b).status.phase = .ready
    ∧ (readyTarget kit b).status.baseImage = b.status.baseImage
    ∧ (readyTarget kit b).status.image = b.status.image
    ∧ (readyTarget kit b).status.publicImage = b.status.publicImage
    ∧ (readyTarget kit b).status.artifacts
        = b.status.artifacts.map
            (fun a => { id := a.id, location := "", target := a.target })
    ∧ ∀ a ∈ (readyTarget kit b).status.artifacts, a.location = "" := by
  have hrun : handleBuildRunning kit w
      = { effects := .updateKitStatus (readyTarget kit b)
            :: (informIntegrations (readyTarget kit b) w).effects
        , result := (informIntegrations (readyTarget kit b) w).result } := by
    unfold handleBuildRunning
    rw [hg]
    simp [hb, hk, hu]
  refine ⟨by rw [hrun], by rw [hrun], rfl, rfl, rfl, rfl, rfl, ?_⟩
  intro a ha
  simp only [readyTarget, List.mem_map] at ha
  obtain ⟨x, _, rfl⟩ := ha
  rfl

/-- Witness for C1 at a concrete Kit, Build and world. -/
theorem C1_succeeded_finalize_witness :
    (handleBuildRunning sampleKitRunning sampleRunningWorld).effects
        = .updateKitStatus (readyTarget sampleKitRunning sampleBuildSucceeded)
            :: (informIntegrations
                  (readyTarget sampleKitRunning sampleBuildSucceeded)
                  sampleRunningWorld).effects
    ∧ ∀ a ∈ (readyTarget sampleKitRunning sampleBuildSucceeded).status.artifacts,
        a.location = "" :=
  ⟨(C1_succeeded_finalize sampleKitRunning sampleBuildSucceeded
      sampleRunningWorld rfl rfl rfl rfl).1,
   (C1_succeeded_finalize sampleKitRunning sampleBuildSucceeded
      sampleRunningWorld rfl rfl rfl rfl).2.2.2.2.2.2.2⟩

/-- Every effect of the notification loop is a ResolvingKit status update of
a listed Integration whose recorded Kit name equals the Kit's name. -/
theorem informLoop_effects_sound (kitName : String) (items : List Integration)
    (upd : String → Res Unit) :
    ∀ e ∈ (informLoop kitName items upd).effects,
      ∃ i ∈ items, i.status.kit = kitName
        ∧ e = .updateIntegrationStatus (setResolving i) := by
  induction items with
  | nil => simp [informLoop]
  | cons i rest ih =>
    intro e he
    by_cases h : i.status.kit = kitName
    · simp only [informLoop, if_pos h] at he
      cases hu : upd i.meta.name with
      | err msg => rw [hu] at he; simp at he
      | ok u =>
        rw [hu] at he
        simp only [List.mem_cons] at he
        rcases he with rfl | he
        · exact ⟨i, List.mem_cons_self i rest, h, rfl⟩
        · obtain ⟨j, hj, hjk, rfl⟩ := ih e he
          exact ⟨j, List.mem_cons_of_mem i hj, hjk, rfl⟩
    · simp only [informLoop, if_neg h] at he
      obtain ⟨j, hj, hjk, rfl⟩ := ih e he
      exact ⟨j, List.mem_cons_of_mem i hj, hjk, rfl⟩

/-- When every matching update succeeds, the notification loop updates
exactly the matching Integrations, in list order, and returns success. -/
theorem informLoop_all_ok (kitName : String) (items : List Integration)
    (upd : String → Res Unit)
    (h : ∀ i ∈ items, i.status.kit = kitName → upd i.meta.name = .ok ()) :
    informLoop kitName items upd
      = { effects := (items.filter (fun i => i.status.kit = kitName)).map
            (fun i => .updateIntegrationStatus (setResolving i))
        , result := .ok } := by
  induction items with
  | nil => simp [informLoop]
  | cons i rest ih =>
    have hrest : ∀ j ∈ rest, j.status.kit = kitName → upd j.meta.name = .ok () :=
      fun j hj => h j (List.mem_cons_of_mem i hj)
    by_cases hm : i.status.kit = kitName
    · have hok := h i (List.mem_cons_self i rest) hm
      simp [informLoop, hm, hok, ih hrest]
    · simp [informLoop, hm, ih hrest]

/-- When the first failing matching update is at position `j`, the loop
aborts there: only the matching Integrations before `j` are updated, and the
failure is returned. -/
theorem informLoop_first_failure (kitName : String)
    (pre post : List Integration) (j : Integration)
    (upd : String → Res Unit) (msg : String)
    (hok : ∀ i ∈ pre, i.status.kit = kitName → upd i.meta.name = .ok ())
    (hj : j.status.kit = kitName)
    (hfail : upd j.meta.name = .err msg) :
    informLoop kitName (pre ++ j :: post) upd
      = { effects := (pre.filter (fun i => i.status.kit = kitName)).map
            (fun i => .updateIntegrationStatus (setResolving i))
        , result := .err (.updateErr msg) } := by
  induction pre with
  | nil => simp [informLoop, hj, hfail]
  | cons i rest ih =>
    have hrest : ∀ x ∈ rest, x.status.kit = kitName → upd x.meta.name = .ok () :=
      fun x hx => hok x (List.mem_cons_of_mem i hx)
    by_cases hm : i.status.kit = kitName
    · have hu := hok i (List.mem_cons_self i rest) hm
      simp [informLoop, hm, hu, ih hrest]
    · simp [informLoop, hm, ih hrest]

/-- C5: dependent notification updates to ResolvingKit exactly those listed
Integrations whose recorded Kit name equals the Kit's name by exact string
match; updates are sequential in list order, the first persistence failure
aborts the loop and is returned, and the Integrations updated before the
failure remain updated. -/
theorem C5_informIntegrations_fanout (kit : Kit) (w : RunningWorld)
    (items : List Integration)
    (hl : w.listIntegrations = .ok items) :
    (∀ e ∈ (informIntegrations kit w).effects,
      ∃ i ∈ items, i.status.kit = kit.meta.name
        ∧ e = .updateIntegrationStatus (setResolving i))
    ∧ ((∀ i ∈ items, i.status.kit = kit.meta.name →
          w.updateIntegration i.meta.name = .ok ()) →
        informIntegrations kit w
          = { effects := (items.filter (fun i => i.status.kit = kit.meta.name)).map
                (fun i => .updateIntegrationStatus (setResolving i))
            , result := .ok })
    ∧ (∀ pre j post msg, items = pre ++ j :: post →
        (∀ i ∈ pre, i.status.kit = kit.meta.name →
          w.updateIntegration i.meta.name = .ok ()) →
        j.status.kit = kit.meta.name →
        w.updateIntegration j.meta.name = .err msg →
        informIntegrations kit w
          = { effects := (pre.filter (fun i => i.status.kit = kit.meta.name)).map
                (fun i => .updateIntegrationStatus (setResolving i))
            , result := .err (.updateErr msg) }) := by
  have heq : informIntegrations kit w
      = informLoop kit.meta.name items w.updateIntegration := by
    unfold informIntegrations
    rw [hl]
  refine ⟨?_, ?_, ?_⟩
  · rw [heq]
    exact informLoop_effects_sound kit.meta.name items w.updateIntegration
  · intro h
    rw [heq]
    exact informLoop_all_ok kit.meta.name items w.updateIntegration h
  · intro pre j post msg hsplit hok hj hfail
    rw [heq, hsplit]
    exact informLoop_first_failure kit.meta.name pre post j
      w.updateIntegration msg hok hj hfail

/-- Witness for C5: on a concrete list where the third Integration's update
fails, only the matching Integration before it is updated and the failure is
returned. -/
theorem C5_informIntegrations_fanout_witness :
    informIntegrations sampleKitRunning sampleRunningWorldFail
      = { effects := [.updateIntegrationStatus (setResolving
            { meta := { ns := "ns", name := "i1" }
            , status := { kit := "my-kit", phase := .unset } })]
        , result := .err (.updateErr "boom") } :=
  (C5_informIntegrations_fanout sampleKitRunning sampleRunningWorldFail
      sampleIntegrations rfl).2.2
    [ { meta := { ns := "ns", name := "i1" }
      , status := { kit := "my-kit", phase := .unset } }
    , { meta := { ns := "ns", name := "i2" }
      , status := { kit := "my-kit-2", phase := .unset } } ]
    { meta := { ns := "ns", name := "i3" }
    , status := { kit := "my-kit", phase := .deploying } }
    [] "boom" rfl (by decide) rfl rfl

/-- The effects written while the Kit advances to BuildRunning, by case on
whether the fetched Build was observed Running. -/
theorem afterEnsure_effects_cases (kit : Kit) (w : SubmitWorld)
    (prior : List Effect) (bu : Build) :
    (afterEnsure kit w prior bu).effects = prior
    ∨ (bu.status.phase = .running ∧ w.updateStatus = .ok ()
        ∧ (afterEnsure kit w prior bu).effects
            = prior ++ [.updateKitStatus
                { kit with status := { kit.status with phase := .buildRunning } }]) := by
  unfold afterEnsure
  by_cases h : bu.status.phase = BuildPhase.running
  · cases hu : w.updateStatus with
    | err msg => left; simp [h]
    | ok u =>
      right
      cases u
      exact ⟨h, rfl, by simp [h]⟩
  · left; simp [h]

/-- The effects of a triggered (re)build: nothing, a delete only (create
failed), or the delete followed by the create of the new Build. -/
theorem rebuild_effects_cases (kit : Kit) (w : SubmitWorld) :
    (rebuild kit w).effects = []
    ∨ (rebuild kit w).effects = [.deleteBuild kit.meta.ns kit.meta.name]
    ∨ ∃ env catalog, w.applyEnv = .ok env ∧ env.camelCatalog = some catalog
        ∧ (rebuild kit w).effects
            = [.deleteBuild kit.meta.ns kit.meta.name
              , .createBuild (mkBuild kit env catalog)] := by
  cases ha : w.applyEnv with
  | err msg => left; simp [rebuild, ha]
  | ok env =>
    cases hc : env.camelCatalog with
    | none => left; simp [rebuild, ha, hc]
    | some catalog =>
      cases hs : w.setRef with
      | err msg => left; simp [rebuild, ha, hc, hs]
      | ok u =>
        cases u
        cases hdel : w.delBuild with
        | err msg => left; simp [rebuild, ha, hc, hs, hdel]
        | ok =>
          cases hcr : w.createRes with
          | err msg => right; left; simp [rebuild, ha, hc, hs, hdel, hcr]
          | ok u2 =>
            cases u2
            right; right
            refine ⟨env, catalog, by simp [ha], by simp [hc], ?_⟩
            simp [rebuild, ha, hc, hs, hdel, hcr, afterEnsure, mkBuild,
              BuildStatus.zero]
        | notFound =>
          cases hcr : w.createRes with
          | err msg => right; left; simp [rebuild, ha, hc, hs, hdel, hcr]
          | ok u2 =>
            cases u2
            right; right
            refine ⟨env, catalog, by simp [ha], by simp [hc], ?_⟩
            simp [rebuild, ha, hc, hs, hdel, hcr, afterEnsure, mkBuild,
              BuildStatus.zero]

/-- A triggered (re)build whose external calls all succeed deletes the old
Build and creates the new one, and returns success without touching the
Kit's status (the new Build's status phase is the zero value). -/
theorem rebuild_success (kit : Kit) (w : SubmitWorld) (env : Env)
    (catalog : CamelCatalog)
    (ha : w.applyEnv = .ok env) (hc : env.camelCatalog = some catalog)
    (hs : w.setRef = .ok ()) (hd : ∀ msg, w.delBuild ≠ OpResult.err msg)
    (hcr : w.createRes = .ok ()) :
    rebuild kit w
      = { effects := [.deleteBuild kit.meta.ns kit.meta.name
                    , .createBuild (mkBuild kit env catalog)]
        , result := .ok } := by
  unfold rebuild
  simp only [ha, hc, hs]
  cases hdel : w.delBuild with
  | err msg => exact absurd hdel (hd msg)
  | ok =>
    simp only [hcr]
    unfold afterEnsure
    simp [mkBuild, BuildStatus.zero]
  | notFound =>
    simp only [hcr]
    unfold afterEnsure
    simp [mkBuild, BuildStatus.zero]

/-- Full case analysis of the effects a BuildSubmitted pass can write. -/
theorem handleBuildSubmitted_effects_cases (kit : Kit) (w : SubmitWorld) :
    (handleBuildSubmitted kit w).effects = []
    ∨ (handleBuildSubmitted kit w).effects
        = [.deleteBuild kit.meta.ns kit.meta.name]
    ∨ (∃ env catalog, w.applyEnv = .ok env ∧ env.camelCatalog = some catalog
        ∧ (handleBuildSubmitted kit w).effects
            = [.deleteBuild kit.meta.ns kit.meta.name
              , .createBuild (mkBuild kit env catalog)])
    ∨ (∃ b, w.getBuild = .found b ∧ b.status.phase = .running
        ∧ w.updateStatus = .ok ()
        ∧ (handleBuildSubmitted kit w).effects
            = [.updateKitStatus
                { kit with status := { kit.status with phase := .buildRunning } }]) := by
  cases hg : w.getBuild with
  | storeErr msg =>
    left
    simp [handleBuildSubmitted, hg]
  | notFound =>
    have hred : handleBuildSubmitted kit w = rebuild kit w := by
      unfold handleBuildSubmitted
      rw [hg]
    rw [hred]
    rcases rebuild_effects_cases kit w with h | h | ⟨env, cat, h1, h2, h3⟩
    · left; exact h
    · right; left; exact h
    · right; right; left; exact ⟨env, cat, h1, h2, h3⟩
  | found b =>
    by_cases ht : triggerPhase b.status.phase = true
    · have hred : handleBuildSubmitted kit w = rebuild kit w := by
        unfold handleBuildSubmitted
        rw [hg]
        simp [ht]
      rw [hred]
      rcases rebuild_effects_cases kit w with h | h | ⟨env, cat, h1, h2, h3⟩
      · left; exact h
      · right; left; exact h
      · right; right; left; exact ⟨env, cat, h1, h2, h3⟩
    · have hred : handleBuildSubmitted kit w = afterEnsure kit w [] b := by
        unfold handleBuildSubmitted
        rw [hg]
        simp [ht]
      rw [hred]
      rcases afterEnsure_effects_cases kit w [] b with h | ⟨hr, hu, h⟩
      · left; exact h
      · right; right; right
        exact ⟨b, rfl, hr, hu, by simpa using h⟩

/-- Every Build created by a BuildSubmitted pass has the zero status, hence
an unset status phase. -/
theorem created_build_unset (kit : Kit) (w : SubmitWorld) (b : Build)
    (h : Effect.createBuild b ∈ (handleBuildSubmitted kit w).effects) :
    b.status.phase = .unset := by
  rcases handleBuildSubmitted_effects_cases kit w with
    hc | hc | ⟨env, cat, _, _, hc⟩ | ⟨pb, _, _, _, hc⟩ <;> rw [hc] at h
  · simp at h
  · simp at h
  · simp only [List.mem_cons, List.not_mem_nil, or_false] at h
    rcases h with h | h
    · cases h
    · cases h
      simp [mkBuild, BuildStatus.zero]
  · simp at h

/-- C2: a BuildSubmitted pass performs the delete-then-create replacement of
the same-identity Build exactly when the fetched Build is absent or in a
terminal phase (Error, Interrupted or Succeeded); otherwise it performs no
delete and no create. -/
theorem C2_trigger_iff (kit : Kit) (w : SubmitWorld) :
    (rebuildTriggered w.getBuild = false →
      ∀ e ∈ (handleBuildSubmitted kit w).effects, e.isBuildOp = false)
    ∧ (∀ env catalog, rebuildTriggered w.getBuild = true →
        w.applyEnv = .ok env → env.camelCatalog = some catalog →
        w.setRef = .ok () → (∀ msg, w.delBuild ≠ OpResult.err msg) →
        w.createRes = .ok () →
        handleBuildSubmitted kit w
          = { effects := [.deleteBuild kit.meta.ns kit.meta.name
                        , .createBuild (mkBuild kit env catalog)]
            , result := .ok }) := by
  constructor
  · intro hf e he
    cases hg : w.getBuild with
    | storeErr msg =>
      rw [show handleBuildSubmitted kit w
          = { effects := [], result := .err (.store msg) } by
        unfold handleBuildSubmitted; rw [hg]] at he
      simp at he
    | notFound => rw [hg] at hf; simp [rebuildTriggered] at hf
    | found b =>
      rw [hg] at hf
      simp only [rebuildTriggered] at hf
      rw [show handleBuildSubmitted kit w = afterEnsure kit w [] b by
        unfold handleBuildSubmitted; rw [hg]; simp [hf]] at he
      rcases afterEnsure_effects_cases kit w [] b with h | ⟨_, _, h⟩ <;>
        rw [h] at he
      · simp at he
      · simp only [List.nil_append, List.mem_cons, List.not_mem_nil,
          or_false] at he
        subst he
        rfl
  · intro env catalog ht ha hc hs hd hcr
    cases hg : w.getBuild with
    | storeErr msg => rw [hg] at ht; simp [rebuildTriggered] at ht
    | notFound =>
      rw [show handleBuildSubmitted kit w = rebuild kit w by
        unfold handleBuildSubmitted; rw [hg]]
      exact rebuild_success kit w env catalog ha hc hs hd hcr
    | found b =>
      rw [hg] at ht
      simp only [rebuildTriggered] at ht
      rw [show handleBuildSubmitted kit w = rebuild kit w by
        unfold handleBuildSubmitted; rw [hg]; simp [ht]]
      exact rebuild_success kit w env catalog ha hc hs hd hcr

/-- Witness for C2 at a concrete Kit and world with no existing Build. -/
theorem C2_trigger_iff_witness :
    handleBuildSubmitted sampleKitSubmitted sampleSubmitWorldTrig
      = { effects := [.deleteBuild "ns" "my-kit"
                    , .createBuild (mkBuild sampleKitSubmitted sampleEnv
                        sampleCatalog)]
        , result := .ok } :=
  (C2_trigger_iff sampleKitSubmitted sampleSubmitWorldTrig).2 sampleEnv
    sampleCatalog rfl rfl rfl rfl (by intro msg h; cases h) rfl

/-- C7: a second BuildSubmitted pass that observes the Build created by a
first pass, with no intervening Build-phase change, performs no store
mutation at all, so the two passes create at most one Build. -/
theorem C7_submitted_idempotent (kit : Kit) (w1 w2 : SubmitWorld) (b : Build)
    (h1 : Effect.createBuild b ∈ (handleBuildSubmitted kit w1).effects)
    (h2 : w2.getBuild = .found b) :
    (handleBuildSubmitted kit w2).effects = []
    ∧ countCreates ((handleBuildSubmitted kit w1).effects
        ++ (handleBuildSubmitted kit w2).effects) ≤ 1 := by
  have hz : b.status.phase = .unset := created_build_unset kit w1 b h1
  have he2 : (handleBuildSubmitted kit w2).effects = [] := by
    unfold handleBuildSubmitted
    rw [h2]
    simp [hz, triggerPhase, afterEnsure]
  refine ⟨he2, ?_⟩
  rw [he2, List.append_nil]
  rcases handleBuildSubmitted_effects_cases kit w1 with
    hc | hc | ⟨env, cat, _, _, hc⟩ | ⟨pb, _, _, _, hc⟩ <;>
      simp [countCreates, hc, List.countP_cons, Effect.isCreate]

/-- Witness for C7: the first pass creates the Build, the second pass
observes it and is a no-op. -/
theorem C7_submitted_idempotent_witness :
    (handleBuildSubmitted sampleKitSubmitted sampleSubmitWorldZero).effects = []
    ∧ countCreates
        ((handleBuildSubmitted sampleKitSubmitted sampleSubmitWorldTrig).effects
          ++ (handleBuildSubmitted sampleKitSubmitted sampleSubmitWorldZero).effects)
        ≤ 1 :=
  C7_submitted_idempotent sampleKitSubmitted sampleSubmitWorldTrig
    sampleSubmitWorldZero (mkBuild sampleKitSubmitted sampleEnv sampleCatalog)
    (by decide) rfl

/-- C10: a BuildSubmitted pass that creates a Build never also writes a Kit
status change in the same pass (the created Build's status phase is unset),
and the only status write a BuildSubmitted pass can make is the advance to
BuildRunning, made exactly when a pre-existing Build is fetched and observed
Running. -/
theorem C10_no_advance_on_recreate (kit : Kit) (w : SubmitWorld) :
    (∀ b, Effect.createBuild b ∈ (handleBuildSubmitted kit w).effects →
        b.status.phase = .unset)
    ∧ ((∃ b, Effect.createBuild b ∈ (handleBuildSubmitted kit w).effects) →
        ∀ k, Effect.updateKitStatus k ∉ (handleBuildSubmitted kit w).effects)
    ∧ (∀ t, Effect.updateKitStatus t ∈ (handleBuildSubmitted kit w).effects →
        ∃ pb, w.getBuild = .found pb ∧ pb.status.phase = .running
          ∧ rebuildTriggered w.getBuild = false
          ∧ t = { kit with status := { kit.status with phase := .buildRunning } }
          ∧ (handleBuildSubmitted kit w).effects = [.updateKitStatus t]) := by
  refine ⟨fun b h => created_build_unset kit w b h, ?_, ?_⟩
  · rintro ⟨b, hb⟩ k hk
    rcases handleBuildSubmitted_effects_cases kit w with
      hc | hc | ⟨env, cat, _, _, hc⟩ | ⟨pb, _, _, _, hc⟩ <;>
        rw [hc] at hb hk <;> simp at hb hk
  · intro t ht
    rcases handleBuildSubmitted_effects_cases kit w with
      hc | hc | ⟨env, cat, _, _, hc⟩ | ⟨pb, hg, hrun, hu, hc⟩ <;> rw [hc] at ht
    · simp at ht
    · simp at ht
    · simp at ht
    · simp only [List.mem_cons, List.not_mem_nil, or_false] at ht
      cases ht
      exact ⟨pb, hg, hrun, by simp [rebuildTriggered, hg, triggerPhase, hrun],
        rfl, hc⟩

/-- Witness for C10: a pass that fetches a Running Build advances the Kit to
BuildRunning. -/
theorem C10_no_advance_on_recreate_witness :
    ∃ pb, sampleSubmitWorldRunning.getBuild = GetBuildResult.found pb
      ∧ pb.status.phase = .running
      ∧ rebuildTriggered sampleSubmitWorldRunning.getBuild = false
      ∧ ({ sampleKitSubmitted with status :=
            { sampleKitSubmitted.status with phase := .buildRunning } } : Kit)
          = { sampleKitSubmitted with status :=
              { sampleKitSubmitted.status with phase := .buildRunning } }
      ∧ (handleBuildSubmitted sampleKitSubmitted sampleSubmitWorldRunning).effects
          = [.updateKitStatus
              { sampleKitSubmitted with status :=
                { sampleKitSubmitted.status with phase := .buildRunning } }] :=
  (C10_no_advance_on_recreate sampleKitSubmitted sampleSubmitWorldRunning).2.2
    { sampleKitSubmitted with status :=
      { sampleKitSubmitted.status with phase := .buildRunning } }
    (by decide)

/-- C3: after Initialize runs once with the platform ready and every
external call succeeding, the persisted Kit status has phase BuildSubmitted
when the spec carries no pre-built image and phase Ready with status.image
equal to spec.image when it does; the digest is stored, and no Build is
created. -/
theorem C3_initialize_once (kit k' : Kit) (w : InitWorld) (d : String)
    (hp : w.platformReady = true)
    (ha : w.applyKit = .ok k')
    (hi : k'.spec.image = kit.spec.image)
    (hu : w.updateKit = .ok ())
    (hd : w.digest = .ok d)
    (hs : w.updateStatus = .ok ()) :
    ∃ t, initializeHandle kit w
        = { effects := [.updateKit k', .updateKitStatus t], result := .ok }
      ∧ (kit.spec.image = "" → t.status.phase = .buildSubmitted)
      ∧ (kit.spec.image ≠ "" →
          t.status.phase = .ready ∧ t.status.image = kit.spec.image)
      ∧ t.status.digest = d
      ∧ ∀ e ∈ (initializeHandle kit w).effects, ∀ b, e ≠ Effect.createBuild b := by
  have heq : initializeHandle kit w
      = { effects := [.updateKit k', .updateKitStatus
            { initTarget k' with status :=
              { (initTarget k').status with digest := d } }]
        , result := .ok } := by
    unfold initializeHandle
    simp [hp, ha, hu, hd, hs]
  refine ⟨{ initTarget k' with status :=
      { (initTarget k').status with digest := d } }, heq, ?_, ?_, rfl, ?_⟩
  · intro him
    simp [initTarget, hi, him]
  · intro him
    constructor
    · simp [initTarget, hi, him]
    · simp [initTarget, hi, him]
  · rw [heq]
    intro e he b
    simp only [List.mem_cons, List.not_mem_nil, or_false] at he
    rcases he with rfl | rfl <;> simp

/-- Witness for C3 at a concrete Kit without a pre-built image. -/
theorem C3_initialize_once_witness :
    ∃ t, initializeHandle sampleKitUnset sampleInitWorld
        = { effects := [.updateKit sampleKitUnset, .updateKitStatus t]
          , result := .ok }
      ∧ (sampleKitUnset.spec.image = "" → t.status.phase = .buildSubmitted)
      ∧ (sampleKitUnset.spec.image ≠ "" →
          t.status.phase = .ready ∧ t.status.image = sampleKitUnset.spec.image)
      ∧ t.status.digest = "digest-1"
      ∧ ∀ e ∈ (initializeHandle sampleKitUnset sampleInitWorld).effects,
          ∀ b, e ≠ Effect.createBuild b :=
  C3_initialize_once sampleKitUnset sampleKitUnset sampleInitWorld "digest-1"
    rfl rfl rfl rfl rfl rfl

end CamelK
